import Mathlib

/-!
A shallow embedding of the per-stream HTTP metrics middleware of
`linkerd2-proxy` (`linkerd/http-metrics/src/requests/layer.rs`), together
with proofs of the behavioural properties of that middleware.

Modelling conventions:

* Machine integers are `Nat`; the monotonic counter saturates at `u64Max`.
* The shared per-target record `Arc<Mutex<Metrics<C>>>` is threaded through
  every operation explicitly as a `LockedMetrics` value; each option-typed
  handle (`Option<Arc<Mutex<Metrics<C>>>>`) held by a stage, a body wrapper
  or a response future is modelled as a `Bool` saying whether the handle is
  still present.  Taking the handle (`Option::take`) sets the `Bool` to
  `false`; all live handles alias the single threaded record, which is what
  `Arc` sharing guarantees in the source.
* Mutex poisoning is the `poisoned` flag of `LockedMetrics`; a poisoned
  lock makes every recording operation a no-op, exactly as each
  `if let Ok(mut metrics) = lock.lock()` / `match lock.lock()` site does.
* `HashMap` maps (`by_status`, `by_class`, `by_target`) are association
  lists with `entry(..).or_insert_with(Default::default)` update semantics.
* Opaque domain types (target key, class, status code, error, trailer map)
  are modelled as `Nat` tokens: the middleware only moves them around and
  compares them for equality.
* The asynchronous inner service and inner bodies are modelled by the
  outcome the wrapped poll observes (`InnerPoll`): not ready, ready with a
  value, or an error.
-/

/-- Opaque class value produced by the response classifier (the source's
`C::Class`; the name `Class` is taken in Mathlib). -/
abbrev ClassVal := Nat

/-- HTTP status code of a response head. -/
abbrev StatusCode := Nat

/-- Opaque boxed error value (`linkerd2_error::Error`). -/
abbrev Err := Nat

/-- Opaque trailer map (`http::HeaderMap`). -/
abbrev Trailers := Nat

/-- Opaque target key of the registry. -/
abbrev Target := Nat

/-- Largest value of a `u64` counter. -/
def u64Max : Nat := 18446744073709551615

/-- Association-list lookup, mirroring `HashMap::get`. -/
def lookupA [DecidableEq α] : List (α × β) → α → Option β
  | [], _ => none
  | (k', v) :: rest, k => if k = k' then some v else lookupA rest k

/-- Association-list update with `entry(k).or_insert_with(|| d)` semantics
followed by a modification `f` of the entry. -/
def updateAList [DecidableEq α] : List (α × β) → α → β → (β → β) → List (α × β)
  | [], k, d, f => [(k, f d)]
  | (k', v) :: rest, k, d, f =>
      if k = k' then (k', f v) :: rest else (k', v) :: updateAList rest k d f

/-- Sum of `g` over the values of an association list. -/
def sumBy (l : List (α × β)) (g : β → Nat) : Nat :=
  (l.map (fun p => g p.2)).sum

/-- Modelled from the spec: the `Counter` primitive of the parent
`linkerd2-http-metrics` module (not among the provided sources) is a
monotonic `u64` counter whose only operation is `incr`, saturating at the
word width. -/
structure Counter where
  value : Nat

def Counter.default : Counter := ⟨0⟩

def Counter.incr (c : Counter) : Counter := ⟨min (c.value + 1) u64Max⟩

/-- Modelled from the spec: the latency `Histogram` of the parent module
(not among the provided sources) is a bucketed duration histogram; its
bucket layout is irrelevant to every claim, so we keep the sequence of
recorded duration samples, of which the buckets and sum are views. -/
structure Histogram where
  samples : List Nat

def Histogram.default : Histogram := ⟨[]⟩

def Histogram.add (h : Histogram) (d : Nat) : Histogram := ⟨d :: h.samples⟩

/-- Modelled from the spec: per-class metrics of the parent module:
`{ total: Counter }`. -/
structure ClassMetrics where
  total : Counter

def ClassMetrics.default : ClassMetrics := ⟨Counter.default⟩

/-- Modelled from the spec: per-status metrics of the parent module:
`{ latency: Histogram, by_class: map<Class, ClassMetrics> }`. -/
structure StatusMetrics where
  latency : Histogram
  by_class : List (ClassVal × ClassMetrics)

def StatusMetrics.default : StatusMetrics := ⟨Histogram.default, []⟩

/-- Modelled from the spec: the per-target `Metrics` record of the parent
module: `{ last_update, total: Counter, by_status: map<Option<StatusCode>,
StatusMetrics> }`; key `none` is a transport-level error with no response
head. -/
structure Metrics where
  last_update : Nat
  total : Counter
  by_status : List (Option StatusCode × StatusMetrics)

def Metrics.default : Metrics := ⟨0, Counter.default, []⟩

/-- A `Mutex<Metrics>`: the record together with its poisoning state. -/
structure LockedMetrics where
  poisoned : Bool
  m : Metrics

/-- Number of latency samples recorded under a status key. -/
def Metrics.latencyCount (m : Metrics) (st : Option StatusCode) : Nat :=
  match lookupA m.by_status st with
  | some sm => sm.latency.samples.length
  | none => 0

/-- Value of the class counter recorded under a status key and a class. -/
def Metrics.classCount (m : Metrics) (st : Option StatusCode) (c : ClassVal) : Nat :=
  match lookupA m.by_status st with
  | some sm =>
      match lookupA sm.by_class c with
      | some cm => cm.total.value
      | none => 0
  | none => 0

/-- Total number of class observations under one status key. -/
def StatusMetrics.classObs (sm : StatusMetrics) : Nat :=
  sumBy sm.by_class (fun cm => cm.total.value)

/-- Total number of class observations in a record. -/
def Metrics.classObs (m : Metrics) : Nat :=
  sumBy m.by_status StatusMetrics.classObs

/-- The `ClassifyEos` capability (`linkerd2_http_classify`): final class
from optional trailers, or from a transport error seen while streaming. -/
structure ClassifyEos where
  eos : Option Trailers → ClassVal
  err : Err → ClassVal

/-- The `ClassifyResponse` capability: transitions to a `ClassifyEos` on a
response head, or produces a terminal class from a pre-head error. -/
structure ClassifyResponse where
  start : StatusCode → ClassifyEos
  error : Err → ClassVal

/-- Outcome observed when polling an inner future or body. -/
inductive InnerPoll (α : Type) where
  | notReady
  | ready (a : α)
  | error (e : Err)

/-- The body of the `if let Ok(mut metrics) = lock.lock()` blocks at
`Service::call` entry (layer.rs lines 325-333) and
`RequestBody::poll_data` (lines 418-424): update `last_update` and
increment `total` under the lock; a poisoned lock drops the observation. -/
def incr_total (now : Nat) (rec : LockedMetrics) : LockedMetrics :=
  if rec.poisoned then rec
  else { rec with m := { rec.m with last_update := now, total := rec.m.total.incr } }

/-- `measure_class` (layer.rs lines 530-554): under the lock, update
`last_update`, resolve the `by_status` entry (default on miss), resolve its
`by_class` entry (default on miss) and increment that class counter. -/
def measure_class (now : Nat) (rec : LockedMetrics) (cls : ClassVal)
    (status : Option StatusCode) : LockedMetrics :=
  if rec.poisoned then rec
  else
    { rec with m :=
      { rec.m with
        last_update := now
        by_status := updateAList rec.m.by_status status StatusMetrics.default
          (fun sm =>
            { sm with
              by_class := updateAList sm.by_class cls ClassMetrics.default
                            (fun cm => { cm with total := cm.total.incr }) }) } }

/-- The `ResponseBody` wrapper (layer.rs lines 74-86) minus the wrapped
inner body, whose yields arrive as `InnerPoll` events; the option-typed
metrics handle is the `hasMetrics` flag (the record itself is threaded
separately, since all handles alias one `Arc`). -/
structure ResponseBody where
  status : StatusCode
  classify : Option ClassifyEos
  hasMetrics : Bool
  stream_open_at : Nat
  latency_recorded : Bool

/-- `ResponseBody::record_latency` (layer.rs lines 492-514): with a handle
and an unpoisoned lock, update `last_update`, add `now - stream_open_at`
to the latency histogram of `by_status[Some(status)]` (default on miss)
and set `latency_recorded`; otherwise return unchanged. -/
def ResponseBody.record_latency (now : Nat) (s : ResponseBody)
    (rec : LockedMetrics) : ResponseBody × LockedMetrics :=
  if s.hasMetrics then
    if rec.poisoned then (s, rec)
    else
      ({ s with latency_recorded := true },
       { rec with m :=
         { rec.m with
           last_update := now
           by_status := updateAList rec.m.by_status (some s.status) StatusMetrics.default
             (fun sm => { sm with latency := sm.latency.add (now - s.stream_open_at) }) } })
  else (s, rec)

/-- `ResponseBody::record_class` (layer.rs lines 516-520): take the metrics
handle if present and run `measure_class` under `Some(status)`. -/
def ResponseBody.record_class (now : Nat) (s : ResponseBody)
    (rec : LockedMetrics) (cls : ClassVal) : ResponseBody × LockedMetrics :=
  if s.hasMetrics then
    ({ s with hasMetrics := false }, measure_class now rec cls (some s.status))
  else (s, rec)

/-- `ResponseBody::measure_err` (layer.rs lines 522-527): take the
classifier; if it was present, classify the error and record the class.
The error value itself is returned unchanged by the caller. -/
def ResponseBody.measure_err (now : Nat) (s : ResponseBody)
    (rec : LockedMetrics) (e : Err) : ResponseBody × LockedMetrics :=
  match s.classify with
  | some c => ResponseBody.record_class now { s with classify := none } rec (c.err e)
  | none => (s, rec)

/-- `ResponseBody::poll_data` (layer.rs lines 569-580): errors of the inner
body run `measure_err` and propagate; on a successfully produced frame
(or end-of-stream), record latency if not yet recorded. -/
def ResponseBody.poll_data (now : Nat) (s : ResponseBody) (rec : LockedMetrics)
    (r : InnerPoll (Option Unit)) :
    (ResponseBody × LockedMetrics) × InnerPoll (Option Unit) :=
  match r with
  | .notReady => ((s, rec), .notReady)
  | .error e => (ResponseBody.measure_err now s rec e, .error e)
  | .ready frame =>
      if s.latency_recorded then ((s, rec), .ready frame)
      else (ResponseBody.record_latency now s rec, .ready frame)

/-- `ResponseBody::poll_trailers` (layer.rs lines 582-594): errors run
`measure_err` and propagate; on ready trailers, take the classifier and,
if it was present, record `classify.eos(trailers)`. -/
def ResponseBody.poll_trailers (now : Nat) (s : ResponseBody) (rec : LockedMetrics)
    (r : InnerPoll (Option Trailers)) :
    (ResponseBody × LockedMetrics) × InnerPoll (Option Trailers) :=
  match r with
  | .notReady => ((s, rec), .notReady)
  | .error e => (ResponseBody.measure_err now s rec e, .error e)
  | .ready trls =>
      match s.classify with
      | some c =>
          (ResponseBody.record_class now { s with classify := none } rec (c.eos trls),
           .ready trls)
      | none => ((s, rec), .ready trls)

/-- `Drop for ResponseBody` (layer.rs lines 618-633): record latency if
not yet recorded, then take the classifier and, if it was present, record
`classify.eos(None)`. -/
def ResponseBody.drop (now : Nat) (s : ResponseBody) (rec : LockedMetrics) :
    ResponseBody × LockedMetrics :=
  let p := if s.latency_recorded then (s, rec) else ResponseBody.record_latency now s rec
  match p.1.classify with
  | some c => ResponseBody.record_class now { p.1 with classify := none } p.2 (c.eos none)
  | none => p

/-- The `ResponseFuture` (layer.rs lines 52-61) minus the inner future,
whose outcome arrives as an `InnerPoll` carrying the response status. -/
structure ResponseFuture where
  classify : Option ClassifyResponse
  hasMetrics : Bool
  stream_open_at : Nat

/-- Outcome of `ResponseFuture::poll`. -/
inductive FutResult where
  | notReady
  | response (body : ResponseBody)
  | failed (e : Err)

/-- `ResponseFuture::poll` (layer.rs lines 355-400): not-ready returns
early with the future unchanged; on a response head, the taken classifier
is transitioned with `start` and a `ResponseBody` is built; on a pre-head
error, the taken classifier's error branch is recorded under status `None`
and the error is propagated. -/
def ResponseFuture.poll (now : Nat) (s : ResponseFuture) (rec : LockedMetrics)
    (r : InnerPoll StatusCode) : FutResult × LockedMetrics :=
  match r with
  | .notReady => (.notReady, rec)
  | .ready status =>
      (.response
        { status := status
          classify := s.classify.map (fun c => c.start status)
          hasMetrics := s.hasMetrics
          stream_open_at := s.stream_open_at
          latency_recorded := false }, rec)
  | .error e =>
      if s.hasMetrics then
        match s.classify with
        | some c => (.failed e, measure_class now rec (c.error e) none)
        | none => (.failed e, rec)
      else (.failed e, rec)

/-- Result of `Service::call` apart from the inner call itself: the
handle passed into the `RequestBody` wrapper and the constructed
`ResponseFuture`. -/
structure CallResult where
  reqBodyHasMetrics : Bool
  fut : ResponseFuture

/-- `Service::call` (layer.rs lines 322-352; `Proxy::proxy` at lines
272-302 is identical): clone the stage handle; if the incoming body is
already end-of-stream, take that clone and increment `total` under the
lock; wrap the body with the (possibly taken) clone; build the response
future with a fresh clone of the stage handle and the stream-open instant.
The classifier argument is the request-extension classifier with the type
default already substituted (`unwrap_or_default`). -/
def Service.call (now : Nat) (hasMetrics : Bool) (rec : LockedMetrics)
    (isEndStream : Bool) (classify : ClassifyResponse) : CallResult × LockedMetrics :=
  let p : Bool × LockedMetrics :=
    if isEndStream then
      if hasMetrics then (false, incr_total now rec) else (false, rec)
    else (hasMetrics, rec)
  ({ reqBodyHasMetrics := p.1
     fut := { classify := some classify, hasMetrics := hasMetrics, stream_open_at := now } },
   p.2)

/-- `RequestBody::poll_data` (layer.rs lines 415-427): not-ready and
errors pass through before the handle is touched; on the first
successfully produced frame or end-of-stream, take the handle and
increment `total` under the lock. -/
def RequestBody.poll_data (now : Nat) (hasMetrics : Bool) (rec : LockedMetrics)
    (r : InnerPoll (Option Unit)) :
    (Bool × LockedMetrics) × InnerPoll (Option Unit) :=
  match r with
  | .notReady => ((hasMetrics, rec), .notReady)
  | .error e => ((hasMetrics, rec), .error e)
  | .ready frame =>
      if hasMetrics then ((false, incr_total now rec), .ready frame)
      else ((false, rec), .ready frame)

/-- `RequestBody::poll_trailers` (layer.rs lines 429-431): pure
pass-through. -/
def RequestBody.poll_trailers (hasMetrics : Bool) (rec : LockedMetrics)
    (r : InnerPoll (Option Trailers)) :
    (Bool × LockedMetrics) × InnerPoll (Option Trailers) :=
  ((hasMetrics, rec), r)

/-- The shared registry: `SharedRegistry<K, C>` is modelled from the spec
as a mutex-guarded map from target keys to shared record handles; handles
are indices into a store of records so that handle identity (the `Arc`)
is observable. -/
structure Registry where
  poisoned : Bool
  by_target : List (Target × Nat)

/-- The store of allocated records; index `i` is the record behind handle
`i`. -/
structure Store where
  recs : List LockedMetrics

/-- `MakeSvc::new_service` (layer.rs lines 163-181; `MakeSvc::call` at
lines 200-218 is identical): if the registry lock is poisoned the stage
gets no handle; otherwise `by_target.entry(k).or_insert_with(default)`
returns the existing handle or allocates a fresh default record. -/
def MakeSvc.new_service (reg : Registry) (store : Store) (k : Target) :
    Option Nat × Registry × Store :=
  if reg.poisoned then (none, reg, store)
  else
    match lookupA reg.by_target k with
    | some id => (some id, reg, store)
    | none =>
        (some store.recs.length,
         { reg with by_target := reg.by_target ++ [(k, store.recs.length)] },
         { recs := store.recs ++ [{ poisoned := false, m := Metrics.default }] })

/-- One observable event in the life of a wrapped response body. -/
inductive RspEvent where
  | pollData (now : Nat) (r : InnerPoll (Option Unit))
  | pollTrailers (now : Nat) (r : InnerPoll (Option Trailers))

/-- State transition of the response body wrapper on one event. -/
def rspStep (p : ResponseBody × LockedMetrics) (e : RspEvent) :
    ResponseBody × LockedMetrics :=
  match e with
  | .pollData now r => (ResponseBody.poll_data now p.1 p.2 r).1
  | .pollTrailers now r => (ResponseBody.poll_trailers now p.1 p.2 r).1

/-- Run of the response body wrapper over a sequence of events. -/
def rspRun (p : ResponseBody × LockedMetrics) (es : List RspEvent) :
    ResponseBody × LockedMetrics :=
  es.foldl rspStep p

/-- Whole lifetime of the wrapper: the polled events followed by the
destructor. -/
def rspLifetime (p : ResponseBody × LockedMetrics) (es : List RspEvent)
    (dropAt : Nat) : ResponseBody × LockedMetrics :=
  ResponseBody.drop dropAt (rspRun p es).1 (rspRun p es).2

/-- State transition of the request body wrapper on one timed poll. -/
def reqStep (p : Bool × LockedMetrics) (e : Nat × InnerPoll (Option Unit)) :
    Bool × LockedMetrics :=
  (RequestBody.poll_data e.1 p.1 p.2 e.2).1

/-- Run of the request body wrapper over a sequence of timed polls. -/
def reqRun (p : Bool × LockedMetrics) (es : List (Nat × InnerPoll (Option Unit))) :
    Bool × LockedMetrics :=
  es.foldl reqStep p

/-- Whether an event is a completed data poll (a frame or end-of-stream
was produced). -/
def RspEvent.isDataReady : RspEvent → Bool
  | .pollData _ (.ready _) => true
  | _ => false

/-- Whether an event is a transport error of the body stream. -/
def RspEvent.isErrorEvent : RspEvent → Bool
  | .pollData _ (.error _) => true
  | .pollTrailers _ (.error _) => true
  | _ => false

/-- Whether an event is a completed trailers poll. -/
def RspEvent.isTrailersReady : RspEvent → Bool
  | .pollTrailers _ (.ready _) => true
  | _ => false

/-- A transport error occurs before any completed data poll. -/
def errBeforeData : List RspEvent → Bool
  | [] => false
  | e :: es =>
      if e.isDataReady then false
      else if e.isErrorEvent then true
      else errBeforeData es

/-- Trailers complete before any completed data poll (forbidden by the
`Payload` polling contract: data is polled to end-of-stream first). -/
def trailersBeforeData : List RspEvent → Bool
  | [] => false
  | e :: es =>
      if e.isDataReady then false
      else if e.isTrailersReady then true
      else trailersBeforeData es

/-- Whether a poll outcome is a completed poll. -/
def isReadyPoll : InnerPoll (Option Unit) → Bool
  | .ready _ => true
  | _ => false

/-- A concrete end-of-stream classifier for witnesses. -/
def c0 : ClassifyEos := { eos := fun _ => 0, err := fun _ => 1 }

/-- A concrete response classifier for witnesses. -/
def cr0 : ClassifyResponse := { start := fun _ => c0, error := fun _ => 2 }

/-- A fresh unpoisoned record for witnesses. -/
def rec0 : LockedMetrics := { poisoned := false, m := Metrics.default }

/-- A just-constructed response body wrapper for witnesses. -/
def rb0 : ResponseBody :=
  { status := 200, classify := some c0, hasMetrics := true
    stream_open_at := 3, latency_recorded := false }

/-- A just-constructed response future for witnesses. -/
def fut0 : ResponseFuture :=
  { classify := some cr0, hasMetrics := true, stream_open_at := 1 }

/-- A poisoned registry for witnesses. -/
def regP : Registry := { poisoned := true, by_target := [] }

/-- A fresh unpoisoned empty registry for witnesses. -/
def regEmpty : Registry := { poisoned := false, by_target := [] }

/-- An empty record store for witnesses. -/
def store0 : Store := { recs := [] }

/-- A poisoned per-target record for witnesses. -/
def recP : LockedMetrics := { poisoned := true, m := Metrics.default }

/-- Potential bounding future class observations: the observations already
in the record plus one if the classifier has not been consumed yet. -/
def classPotential (p : ResponseBody × LockedMetrics) : Nat :=
  p.2.m.classObs + (if p.1.classify.isSome then 1 else 0)

/-! ### Association-list and counter lemmas -/

theorem lookupA_updateAList_self [DecidableEq α] (l : List (α × β)) (k : α)
    (d : β) (f : β → β) :
    lookupA (updateAList l k d f) k = some (f ((lookupA l k).getD d)) := by
  induction l with
  | nil => simp [updateAList, lookupA]
  | cons p rest ih =>
      obtain ⟨k', v⟩ := p
      by_cases h : k = k'
      · simp [updateAList, lookupA, h]
      · simp [updateAList, lookupA, h, ih]

theorem lookupA_updateAList_ne [DecidableEq α] (l : List (α × β)) (k k' : α)
    (d : β) (f : β → β) (h : k' ≠ k) :
    lookupA (updateAList l k d f) k' = lookupA l k' := by
  induction l with
  | nil => simp [updateAList, lookupA, h]
  | cons p rest ih =>
      obtain ⟨k'', v⟩ := p
      by_cases hk : k = k''
      · subst hk
        simp [updateAList, lookupA, h]
      · by_cases hk' : k' = k''
        · simp [updateAList, lookupA, hk, hk']
        · simp [updateAList, lookupA, hk, hk', ih]

theorem lookupA_eq_none_iff [DecidableEq α] (l : List (α × β)) (k : α) :
    lookupA l k = none ↔ k ∉ l.map Prod.fst := by
  induction l with
  | nil => simp [lookupA]
  | cons p rest ih =>
      obtain ⟨k', v⟩ := p
      by_cases h : k = k'
      · simp [lookupA, h]
      · simp [lookupA, h, ih]

theorem lookupA_append_single_self [DecidableEq α] (l : List (α × β)) (k : α)
    (v : β) (h : lookupA l k = none) :
    lookupA (l ++ [(k, v)]) k = some v := by
  induction l with
  | nil => simp [lookupA]
  | cons p rest ih =>
      obtain ⟨k', w⟩ := p
      by_cases hk : k = k'
      · simp [lookupA, hk] at h
      · simp [lookupA, hk] at h ⊢
        exact ih h

theorem sumBy_updateAList_eq [DecidableEq α] (l : List (α × β)) (k : α)
    (d : β) (f : β → β) (g : β → Nat)
    (hf : ∀ v, g (f v) = g v) (hd : g d = 0) :
    sumBy (updateAList l k d f) g = sumBy l g := by
  induction l with
  | nil => simp [updateAList, sumBy, hf, hd]
  | cons p rest ih =>
      obtain ⟨k', v⟩ := p
      by_cases h : k = k'
      · simp [updateAList, sumBy, h, hf]
      · simp only [updateAList, sumBy, h, if_false, List.map_cons, List.sum_cons]
        simp only [sumBy] at ih
        omega

theorem sumBy_updateAList_le [DecidableEq α] (l : List (α × β)) (k : α)
    (d : β) (f : β → β) (g : β → Nat)
    (hf : ∀ v, g (f v) ≤ g v + 1) (hd : g d = 0) :
    sumBy (updateAList l k d f) g ≤ sumBy l g + 1 := by
  induction l with
  | nil =>
      simp only [updateAList, sumBy, List.map_cons, List.map_nil, List.sum_cons,
        List.sum_nil]
      have := hf d
      omega
  | cons p rest ih =>
      obtain ⟨k', v⟩ := p
      by_cases h : k = k'
      · simp only [updateAList, sumBy, h, if_true, List.map_cons, List.sum_cons]
        have := hf v
        omega
      · simp only [updateAList, sumBy, h, if_false, List.map_cons, List.sum_cons]
        simp only [sumBy] at ih
        omega

theorem Counter.incr_value_le (c : Counter) : c.incr.value ≤ c.value + 1 := by
  simp [Counter.incr]

theorem Counter.incr_value_of_lt (c : Counter) (h : c.value < u64Max) :
    c.incr.value = c.value + 1 := by
  simp [Counter.incr]
  omega

/-! ### Lemmas about `measure_class` -/

theorem measure_class_poisoned (now : Nat) (rec : LockedMetrics) (cls : ClassVal)
    (st : Option StatusCode) (h : rec.poisoned = true) :
    measure_class now rec cls st = rec := by
  simp [measure_class, h]

theorem measure_class_m_poisoned (now : Nat) (rec : LockedMetrics) (cls : ClassVal)
    (st : Option StatusCode) :
    (measure_class now rec cls st).poisoned = rec.poisoned := by
  by_cases h : rec.poisoned <;> simp [measure_class, h]

theorem measure_class_latencyCount (now : Nat) (rec : LockedMetrics)
    (cls : ClassVal) (st st' : Option StatusCode) :
    (measure_class now rec cls st).m.latencyCount st' = rec.m.latencyCount st' := by
  by_cases hp : rec.poisoned
  · simp [measure_class, hp]
  · by_cases h : st' = st
    · subst h
      simp only [measure_class, hp, if_false, Metrics.latencyCount,
        Bool.false_eq_true, lookupA_updateAList_self]
      cases hl : lookupA rec.m.by_status st' <;>
        simp [hl, Option.getD, StatusMetrics.default, Histogram.default]
    · simp [measure_class, hp, Metrics.latencyCount, lookupA_updateAList_ne _ _ _ _ _ h]

theorem measure_class_classCount_self (now : Nat) (rec : LockedMetrics)
    (cls : ClassVal) (st : Option StatusCode) (hp : rec.poisoned = false)
    (hlt : rec.m.classCount st cls < u64Max) :
    (measure_class now rec cls st).m.classCount st cls
      = rec.m.classCount st cls + 1 := by
  simp only [measure_class, hp, Bool.false_eq_true, if_false, Metrics.classCount,
    lookupA_updateAList_self]
  cases hl : lookupA rec.m.by_status st with
  | none =>
      simp only [hl, Metrics.classCount] at hlt
      simp [Option.getD, StatusMetrics.default, lookupA_updateAList_self, lookupA,
        ClassMetrics.default, Counter.default, Counter.incr, u64Max]
  | some sm =>
      simp only [hl, Metrics.classCount] at hlt ⊢
      simp only [Option.getD, lookupA_updateAList_self]
      cases hc : lookupA sm.by_class cls with
      | none =>
          simp only [hc] at hlt ⊢
          simp [Option.getD, ClassMetrics.default, Counter.default, Counter.incr, u64Max]
      | some cm =>
          simp only [hc] at hlt ⊢
          simp [Option.getD, Counter.incr_value_of_lt cm.total hlt]

theorem measure_class_classObs_le (now : Nat) (rec : LockedMetrics)
    (cls : ClassVal) (st : Option StatusCode) :
    (measure_class now rec cls st).m.classObs ≤ rec.m.classObs + 1 := by
  by_cases hp : rec.poisoned
  · simp [measure_class, hp]
  · simp only [measure_class, hp, Bool.false_eq_true, if_false, Metrics.classObs]
    apply sumBy_updateAList_le
    · intro sm
      simp only [StatusMetrics.classObs]
      apply sumBy_updateAList_le
      · intro cm
        exact Counter.incr_value_le cm.total
      · simp [ClassMetrics.default, Counter.default]
    · simp [StatusMetrics.default, StatusMetrics.classObs, sumBy]

theorem measure_class_total (now : Nat) (rec : LockedMetrics) (cls : ClassVal)
    (st : Option StatusCode) :
    (measure_class now rec cls st).m.total = rec.m.total := by
  by_cases hp : rec.poisoned <;> simp [measure_class, hp]

/-! ### Lemmas about `record_latency`, `record_class`, `measure_err` -/

theorem record_latency_id_of_noHandle (now : Nat) (s : ResponseBody)
    (rec : LockedMetrics) (h : s.hasMetrics = false) :
    ResponseBody.record_latency now s rec = (s, rec) := by
  simp [ResponseBody.record_latency, h]

theorem record_latency_id_of_poisoned (now : Nat) (s : ResponseBody)
    (rec : LockedMetrics) (h : rec.poisoned = true) :
    ResponseBody.record_latency now s rec = (s, rec) := by
  by_cases h1 : s.hasMetrics <;> simp [ResponseBody.record_latency, h, h1]

theorem record_latency_fst_of (now : Nat) (s : ResponseBody) (rec : LockedMetrics)
    (h1 : s.hasMetrics = true) (h2 : rec.poisoned = false) :
    (ResponseBody.record_latency now s rec).1 = { s with latency_recorded := true } := by
  simp [ResponseBody.record_latency, h1, h2]

theorem record_latency_latCount_self (now : Nat) (s : ResponseBody)
    (rec : LockedMetrics) (h1 : s.hasMetrics = true) (h2 : rec.poisoned = false) :
    (ResponseBody.record_latency now s rec).2.m.latencyCount (some s.status)
      = rec.m.latencyCount (some s.status) + 1 := by
  simp only [ResponseBody.record_latency, h1, h2, Bool.false_eq_true, if_false,
    if_true, Metrics.latencyCount, lookupA_updateAList_self]
  cases hl : lookupA rec.m.by_status (some s.status) <;>
    simp [hl, Option.getD, StatusMetrics.default, Histogram.default, Histogram.add]

theorem record_latency_classObs (now : Nat) (s : ResponseBody) (rec : LockedMetrics) :
    (ResponseBody.record_latency now s rec).2.m.classObs = rec.m.classObs := by
  by_cases h1 : s.hasMetrics
  · by_cases h2 : rec.poisoned
    · simp [ResponseBody.record_latency, h1, h2]
    · simp only [ResponseBody.record_latency, h1, h2, Bool.false_eq_true, if_false,
        if_true, Metrics.classObs]
      apply sumBy_updateAList_eq
      · intro sm
        rfl
      · simp [StatusMetrics.default, StatusMetrics.classObs, sumBy]
  · simp [ResponseBody.record_latency, h1]

theorem record_latency_classCount (now : Nat) (s : ResponseBody) (rec : LockedMetrics)
    (st : Option StatusCode) (c : ClassVal) :
    (ResponseBody.record_latency now s rec).2.m.classCount st c
      = rec.m.classCount st c := by
  by_cases h1 : s.hasMetrics
  · by_cases h2 : rec.poisoned
    · simp [ResponseBody.record_latency, h1, h2]
    · simp only [ResponseBody.record_latency, h1, h2, Bool.false_eq_true, if_false,
        if_true, Metrics.classCount]
      by_cases h : st = some s.status
      · subst h
        simp only [lookupA_updateAList_self]
        cases hl : lookupA rec.m.by_status (some s.status) <;>
          simp [hl, Option.getD, StatusMetrics.default, lookupA]
      · simp [lookupA_updateAList_ne _ _ _ _ _ h]
  · simp [ResponseBody.record_latency, h1]

theorem record_latency_snd_poisoned (now : Nat) (s : ResponseBody)
    (rec : LockedMetrics) :
    (ResponseBody.record_latency now s rec).2.poisoned = rec.poisoned := by
  by_cases h1 : s.hasMetrics <;> by_cases h2 : rec.poisoned <;>
    simp [ResponseBody.record_latency, h1, h2]

theorem record_latency_fst_classify (now : Nat) (s : ResponseBody)
    (rec : LockedMetrics) :
    (ResponseBody.record_latency now s rec).1.classify = s.classify := by
  by_cases h1 : s.hasMetrics <;> by_cases h2 : rec.poisoned <;>
    simp [ResponseBody.record_latency, h1, h2]

theorem record_latency_fst_status (now : Nat) (s : ResponseBody)
    (rec : LockedMetrics) :
    (ResponseBody.record_latency now s rec).1.status = s.status := by
  by_cases h1 : s.hasMetrics <;> by_cases h2 : rec.poisoned <;>
    simp [ResponseBody.record_latency, h1, h2]

theorem record_latency_fst_hasMetrics (now : Nat) (s : ResponseBody)
    (rec : LockedMetrics) :
    (ResponseBody.record_latency now s rec).1.hasMetrics = s.hasMetrics := by
  by_cases h1 : s.hasMetrics <;> by_cases h2 : rec.poisoned <;>
    simp [ResponseBody.record_latency, h1, h2]

theorem record_class_fst_hasMetrics (now : Nat) (s : ResponseBody)
    (rec : LockedMetrics) (cls : ClassVal) :
    (ResponseBody.record_class now s rec cls).1.hasMetrics = false := by
  by_cases h : s.hasMetrics <;> simp [ResponseBody.record_class, h]

theorem record_class_fst_classify (now : Nat) (s : ResponseBody)
    (rec : LockedMetrics) (cls : ClassVal) :
    (ResponseBody.record_class now s rec cls).1.classify = s.classify := by
  by_cases h : s.hasMetrics <;> simp [ResponseBody.record_class, h]

theorem record_class_fst_status (now : Nat) (s : ResponseBody)
    (rec : LockedMetrics) (cls : ClassVal) :
    (ResponseBody.record_class now s rec cls).1.status = s.status := by
  by_cases h : s.hasMetrics <;> simp [ResponseBody.record_class, h]

theorem record_class_fst_flag (now : Nat) (s : ResponseBody)
    (rec : LockedMetrics) (cls : ClassVal) :
    (ResponseBody.record_class now s rec cls).1.latency_recorded
      = s.latency_recorded := by
  by_cases h : s.hasMetrics <;> simp [ResponseBody.record_class, h]

theorem record_class_latencyCount (now : Nat) (s : ResponseBody)
    (rec : LockedMetrics) (cls : ClassVal) (st : Option StatusCode) :
    (ResponseBody.record_class now s rec cls).2.m.latencyCount st
      = rec.m.latencyCount st := by
  by_cases h : s.hasMetrics <;>
    simp [ResponseBody.record_class, h, measure_class_latencyCount]

theorem record_class_classObs_le (now : Nat) (s : ResponseBody)
    (rec : LockedMetrics) (cls : ClassVal) :
    (ResponseBody.record_class now s rec cls).2.m.classObs
      ≤ rec.m.classObs + 1 := by
  by_cases h : s.hasMetrics
  · simp [ResponseBody.record_class, h, measure_class_classObs_le]
  · simp [ResponseBody.record_class, h]

theorem record_class_snd_of (now : Nat) (s : ResponseBody) (rec : LockedMetrics)
    (cls : ClassVal) (h : s.hasMetrics = true) :
    (ResponseBody.record_class now s rec cls).2
      = measure_class now rec cls (some s.status) := by
  simp [ResponseBody.record_class, h]

theorem record_class_snd_poisoned (now : Nat) (s : ResponseBody)
    (rec : LockedMetrics) (cls : ClassVal) :
    (ResponseBody.record_class now s rec cls).2.poisoned = rec.poisoned := by
  by_cases h : s.hasMetrics <;>
    simp [ResponseBody.record_class, h, measure_class_m_poisoned]

theorem measure_err_of_some (now : Nat) (s : ResponseBody) (rec : LockedMetrics)
    (e : Err) (c : ClassifyEos) (h : s.classify = some c) :
    ResponseBody.measure_err now s rec e
      = ResponseBody.record_class now { s with classify := none } rec (c.err e) := by
  simp [ResponseBody.measure_err, h]

theorem measure_err_of_none (now : Nat) (s : ResponseBody) (rec : LockedMetrics)
    (e : Err) (h : s.classify = none) :
    ResponseBody.measure_err now s rec e = (s, rec) := by
  simp [ResponseBody.measure_err, h]

theorem measure_err_fst_classify (now : Nat) (s : ResponseBody)
    (rec : LockedMetrics) (e : Err) :
    (ResponseBody.measure_err now s rec e).1.classify = none := by
  cases h : s.classify with
  | some c => rw [measure_err_of_some now s rec e c h, record_class_fst_classify]
  | none => rw [measure_err_of_none now s rec e h, h]

theorem measure_err_latencyCount (now : Nat) (s : ResponseBody)
    (rec : LockedMetrics) (e : Err) (st : Option StatusCode) :
    (ResponseBody.measure_err now s rec e).2.m.latencyCount st
      = rec.m.latencyCount st := by
  cases h : s.classify with
  | some c => rw [measure_err_of_some now s rec e c h, record_class_latencyCount]
  | none => rw [measure_err_of_none now s rec e h]

theorem measure_err_fst_flag (now : Nat) (s : ResponseBody)
    (rec : LockedMetrics) (e : Err) :
    (ResponseBody.measure_err now s rec e).1.latency_recorded
      = s.latency_recorded := by
  cases h : s.classify with
  | some c => rw [measure_err_of_some now s rec e c h, record_class_fst_flag]
  | none => rw [measure_err_of_none now s rec e h]

/-! ### Run lemmas for the response body wrapper -/

theorem rspRun_cons (p : ResponseBody × LockedMetrics) (e : RspEvent)
    (es : List RspEvent) : rspRun p (e :: es) = rspRun (rspStep p e) es := rfl

theorem rspLifetime_cons (p : ResponseBody × LockedMetrics) (e : RspEvent)
    (es : List RspEvent) (t : Nat) :
    rspLifetime p (e :: es) t = rspLifetime (rspStep p e) es t := rfl

theorem rspStep_flag_latency (p : ResponseBody × LockedMetrics) (e : RspEvent)
    (h : p.1.latency_recorded = true) :
    (rspStep p e).1.latency_recorded = true
      ∧ ∀ st, (rspStep p e).2.m.latencyCount st = p.2.m.latencyCount st := by
  obtain ⟨s, rec⟩ := p
  simp only at h
  cases e with
  | pollData now r =>
      cases r with
      | notReady => exact ⟨h, fun st => rfl⟩
      | ready frame => simp [rspStep, ResponseBody.poll_data, h]
      | error er =>
          refine ⟨?_, fun st => ?_⟩
          · simp only [rspStep, ResponseBody.poll_data]
            rw [measure_err_fst_flag]
            exact h
          · simp only [rspStep, ResponseBody.poll_data]
            rw [measure_err_latencyCount]
  | pollTrailers now r =>
      cases r with
      | notReady => exact ⟨h, fun st => rfl⟩
      | ready trls =>
          cases hc : s.classify with
          | some c =>
              refine ⟨?_, fun st => ?_⟩
              · simp only [rspStep, ResponseBody.poll_trailers, hc]
                rw [record_class_fst_flag]
                exact h
              · simp only [rspStep, ResponseBody.poll_trailers, hc]
                rw [record_class_latencyCount]
          | none => simp [rspStep, ResponseBody.poll_trailers, hc, h]
      | error er =>
          refine ⟨?_, fun st => ?_⟩
          · simp only [rspStep, ResponseBody.poll_trailers]
            rw [measure_err_fst_flag]
            exact h
          · simp only [rspStep, ResponseBody.poll_trailers]
            rw [measure_err_latencyCount]

theorem rspRun_flag_latency (es : List RspEvent) :
    ∀ p : ResponseBody × LockedMetrics, p.1.latency_recorded = true →
      (rspRun p es).1.latency_recorded = true
        ∧ ∀ st, (rspRun p es).2.m.latencyCount st = p.2.m.latencyCount st := by
  induction es with
  | nil => exact fun p h => ⟨h, fun st => rfl⟩
  | cons e es ih =>
      intro p h
      obtain ⟨h1, h2⟩ := rspStep_flag_latency p e h
      obtain ⟨h3, h4⟩ := ih (rspStep p e) h1
      exact ⟨h3, fun st => (h4 st).trans (h2 st)⟩

theorem drop_flag_latency (t : Nat) (p : ResponseBody × LockedMetrics)
    (h : p.1.latency_recorded = true) :
    ∀ st, (ResponseBody.drop t p.1 p.2).2.m.latencyCount st
      = p.2.m.latencyCount st := by
  intro st
  obtain ⟨s, rec⟩ := p
  simp only at h
  simp only [ResponseBody.drop, h, if_true]
  cases hc : s.classify with
  | some c => simp [hc, record_class_latencyCount]
  | none => simp [hc]

theorem rspLifetime_flag_latency (es : List RspEvent) (t : Nat)
    (p : ResponseBody × LockedMetrics) (h : p.1.latency_recorded = true) :
    ∀ st, (rspLifetime p es t).2.m.latencyCount st = p.2.m.latencyCount st := by
  intro st
  obtain ⟨h1, h2⟩ := rspRun_flag_latency es p h
  unfold rspLifetime
  rw [drop_flag_latency t (rspRun p es) h1 st]
  exact h2 st

theorem rspStep_dead (p : ResponseBody × LockedMetrics) (e : RspEvent)
    (h1 : p.1.hasMetrics = false) (h2 : p.1.classify = none) :
    rspStep p e = p := by
  obtain ⟨s, rec⟩ := p
  simp only at h1 h2
  cases e with
  | pollData now r =>
      cases r with
      | notReady => rfl
      | ready frame =>
          by_cases hf : s.latency_recorded
          · simp [rspStep, ResponseBody.poll_data, hf]
          · simp [rspStep, ResponseBody.poll_data, hf,
              record_latency_id_of_noHandle _ _ _ h1]
      | error er => simp [rspStep, ResponseBody.poll_data,
          measure_err_of_none _ _ _ _ h2]
  | pollTrailers now r =>
      cases r with
      | notReady => rfl
      | ready trls => simp [rspStep, ResponseBody.poll_trailers, h2]
      | error er => simp [rspStep, ResponseBody.poll_trailers,
          measure_err_of_none _ _ _ _ h2]

theorem rspRun_dead (es : List RspEvent) (p : ResponseBody × LockedMetrics)
    (h1 : p.1.hasMetrics = false) (h2 : p.1.classify = none) :
    rspRun p es = p := by
  induction es with
  | nil => rfl
  | cons e es ih => rw [rspRun_cons, rspStep_dead p e h1 h2, ih]

theorem drop_dead (t : Nat) (p : ResponseBody × LockedMetrics)
    (h1 : p.1.hasMetrics = false) (h2 : p.1.classify = none) :
    ResponseBody.drop t p.1 p.2 = p := by
  obtain ⟨s, rec⟩ := p
  simp only at h1 h2
  by_cases hf : s.latency_recorded
  · simp [ResponseBody.drop, hf, h2]
  · simp [ResponseBody.drop, hf, record_latency_id_of_noHandle _ _ _ h1, h2]

theorem rspLifetime_dead (es : List RspEvent) (t : Nat)
    (p : ResponseBody × LockedMetrics)
    (h1 : p.1.hasMetrics = false) (h2 : p.1.classify = none) :
    rspLifetime p es t = p := by
  unfold rspLifetime
  rw [rspRun_dead es p h1 h2]
  exact drop_dead t p h1 h2

/-! ### Latency over a whole response-body lifetime -/

theorem drop_fresh_latency (t : Nat) (s : ResponseBody) (rec : LockedMetrics)
    (c : ClassifyEos) (h1 : s.hasMetrics = true) (h2 : s.latency_recorded = false)
    (h3 : s.classify = some c) (h4 : rec.poisoned = false) :
    (ResponseBody.drop t s rec).2.m.latencyCount (some s.status)
      = rec.m.latencyCount (some s.status) + 1 := by
  have hrl := record_latency_fst_of t s rec h1 h4
  simp only [ResponseBody.drop, h2, Bool.false_eq_true, if_false, hrl, h3]
  rw [record_class_latencyCount]
  exact record_latency_latCount_self t s rec h1 h4

theorem latency_lifetime_count (es : List RspEvent) :
    ∀ (s : ResponseBody) (rec : LockedMetrics) (t : Nat) (c : ClassifyEos),
      s.hasMetrics = true → s.latency_recorded = false → s.classify = some c →
      rec.poisoned = false → trailersBeforeData es = false →
      (rspLifetime (s, rec) es t).2.m.latencyCount (some s.status)
        = rec.m.latencyCount (some s.status)
            + (if errBeforeData es then 0 else 1) := by
  induction es with
  | nil =>
      intro s rec t c h1 h2 h3 h4 _
      have hnil : rspLifetime (s, rec) [] t = ResponseBody.drop t s rec := rfl
      rw [hnil]
      simp only [errBeforeData, if_false, Bool.false_eq_true]
      exact drop_fresh_latency t s rec c h1 h2 h3 h4
  | cons e es ih =>
      intro s rec t c h1 h2 h3 h4 h5
      rw [rspLifetime_cons]
      cases e with
      | pollData now r =>
          cases r with
          | notReady =>
              have hstep : rspStep (s, rec) (.pollData now .notReady) = (s, rec) := rfl
              rw [hstep]
              have h5' : trailersBeforeData es = false := by
                simpa [trailersBeforeData, RspEvent.isDataReady,
                  RspEvent.isTrailersReady] using h5
              have herr : errBeforeData (RspEvent.pollData now .notReady :: es)
                  = errBeforeData es := by
                simp [errBeforeData, RspEvent.isDataReady, RspEvent.isErrorEvent]
              rw [herr]
              exact ih s rec t c h1 h2 h3 h4 h5'
          | ready frame =>
              have hstep : rspStep (s, rec) (.pollData now (.ready frame))
                  = ResponseBody.record_latency now s rec := by
                simp [rspStep, ResponseBody.poll_data, h2]
              rw [hstep]
              have hfst := record_latency_fst_of now s rec h1 h4
              have hflag : (ResponseBody.record_latency now s rec).1.latency_recorded
                  = true := by rw [hfst]
              have hfin := rspLifetime_flag_latency es t
                (ResponseBody.record_latency now s rec) hflag (some s.status)
              have herr : errBeforeData (RspEvent.pollData now (.ready frame) :: es)
                  = false := by
                simp [errBeforeData, RspEvent.isDataReady]
              rw [herr, if_neg (by simp)]
              have hpair : rspLifetime ((ResponseBody.record_latency now s rec).1,
                  (ResponseBody.record_latency now s rec).2) es t
                  = rspLifetime (ResponseBody.record_latency now s rec) es t := rfl
              rw [hpair, hfin]
              exact record_latency_latCount_self now s rec h1 h4
          | error er =>
              have hstep : rspStep (s, rec) (.pollData now (.error er))
                  = ResponseBody.measure_err now s rec er := by
                simp [rspStep, ResponseBody.poll_data]
              rw [hstep]
              have hm := measure_err_of_some now s rec er c h3
              have hdead1 : (ResponseBody.measure_err now s rec er).1.hasMetrics
                  = false := by
                rw [hm, record_class_fst_hasMetrics]
              have hdead2 : (ResponseBody.measure_err now s rec er).1.classify
                  = none := measure_err_fst_classify now s rec er
              have hlife := rspLifetime_dead es t
                ((ResponseBody.measure_err now s rec er).1,
                 (ResponseBody.measure_err now s rec er).2) hdead1 hdead2
              have hpair : rspLifetime (ResponseBody.measure_err now s rec er) es t
                  = rspLifetime ((ResponseBody.measure_err now s rec er).1,
                    (ResponseBody.measure_err now s rec er).2) es t := rfl
              rw [hpair, hlife]
              have herr : errBeforeData (RspEvent.pollData now (.error er) :: es)
                  = true := by
                simp [errBeforeData, RspEvent.isDataReady, RspEvent.isErrorEvent]
              rw [herr, if_pos rfl]
              rw [measure_err_latencyCount]
              omega
      | pollTrailers now r =>
          cases r with
          | notReady =>
              have hstep : rspStep (s, rec) (.pollTrailers now .notReady)
                  = (s, rec) := rfl
              rw [hstep]
              have h5' : trailersBeforeData es = false := by
                simpa [trailersBeforeData, RspEvent.isDataReady,
                  RspEvent.isTrailersReady] using h5
              have herr : errBeforeData (RspEvent.pollTrailers now .notReady :: es)
                  = errBeforeData es := by
                simp [errBeforeData, RspEvent.isDataReady, RspEvent.isErrorEvent]
              rw [herr]
              exact ih s rec t c h1 h2 h3 h4 h5'
          | ready trls =>
              exfalso
              have : trailersBeforeData (RspEvent.pollTrailers now (.ready trls) :: es)
                  = true := by
                simp [trailersBeforeData, RspEvent.isDataReady,
                  RspEvent.isTrailersReady]
              rw [h5] at this
              exact Bool.false_ne_true this
          | error er =>
              have hstep : rspStep (s, rec) (.pollTrailers now (.error er))
                  = ResponseBody.measure_err now s rec er := by
                simp [rspStep, ResponseBody.poll_trailers]
              rw [hstep]
              have hm := measure_err_of_some now s rec er c h3
              have hdead1 : (ResponseBody.measure_err now s rec er).1.hasMetrics
                  = false := by
                rw [hm, record_class_fst_hasMetrics]
              have hdead2 : (ResponseBody.measure_err now s rec er).1.classify
                  = none := measure_err_fst_classify now s rec er
              have hlife := rspLifetime_dead es t
                ((ResponseBody.measure_err now s rec er).1,
                 (ResponseBody.measure_err now s rec er).2) hdead1 hdead2
              have hpair : rspLifetime (ResponseBody.measure_err now s rec er) es t
                  = rspLifetime ((ResponseBody.measure_err now s rec er).1,
                    (ResponseBody.measure_err now s rec er).2) es t := rfl
              rw [hpair, hlife]
              have herr : errBeforeData (RspEvent.pollTrailers now (.error er) :: es)
                  = true := by
                simp [errBeforeData, RspEvent.isDataReady, RspEvent.isErrorEvent,
                  RspEvent.isTrailersReady]
              rw [herr, if_pos rfl]
              rw [measure_err_latencyCount]
              omega

/-! ### Class observations over a whole response-body lifetime -/

theorem record_class_taken_potential (now : Nat) (s : ResponseBody)
    (rec : LockedMetrics) (cls : ClassVal) :
    classPotential (ResponseBody.record_class now { s with classify := none } rec cls)
      ≤ rec.m.classObs + 1 := by
  unfold classPotential
  have h1 := record_class_fst_classify now { s with classify := none } rec cls
  have h2 := record_class_classObs_le now { s with classify := none } rec cls
  simp only [h1] at *
  simp only [Option.isSome_none, Bool.false_eq_true, if_false]
  omega

theorem measure_err_classPotential (now : Nat) (s : ResponseBody)
    (rec : LockedMetrics) (e : Err) :
    classPotential (ResponseBody.measure_err now s rec e)
      ≤ classPotential (s, rec) := by
  cases hc : s.classify with
  | none => rw [measure_err_of_none now s rec e hc]
  | some c =>
      rw [measure_err_of_some now s rec e c hc]
      have := record_class_taken_potential now s rec (c.err e)
      unfold classPotential
      simp only [hc, Option.isSome_some, if_true]
      unfold classPotential at this
      omega

theorem record_latency_classPotential (now : Nat) (s : ResponseBody)
    (rec : LockedMetrics) :
    classPotential (ResponseBody.record_latency now s rec)
      = classPotential (s, rec) := by
  unfold classPotential
  rw [record_latency_classObs, record_latency_fst_classify]

theorem rspStep_classPotential (p : ResponseBody × LockedMetrics) (e : RspEvent) :
    classPotential (rspStep p e) ≤ classPotential p := by
  obtain ⟨s, rec⟩ := p
  cases e with
  | pollData now r =>
      cases r with
      | notReady => exact le_refl _
      | ready frame =>
          by_cases hf : s.latency_recorded
          · simp [rspStep, ResponseBody.poll_data, hf]
          · have hstep : rspStep (s, rec) (.pollData now (.ready frame))
                = ResponseBody.record_latency now s rec := by
              simp [rspStep, ResponseBody.poll_data, hf]
            rw [hstep, record_latency_classPotential]
      | error er =>
          have hstep : rspStep (s, rec) (.pollData now (.error er))
              = ResponseBody.measure_err now s rec er := by
            simp [rspStep, ResponseBody.poll_data]
          rw [hstep]
          exact measure_err_classPotential now s rec er
  | pollTrailers now r =>
      cases r with
      | notReady => exact le_refl _
      | ready trls =>
          cases hc : s.classify with
          | none => simp [rspStep, ResponseBody.poll_trailers, hc]
          | some c =>
              have hstep : rspStep (s, rec) (.pollTrailers now (.ready trls))
                  = ResponseBody.record_class now { s with classify := none } rec
                      (c.eos trls) := by
                simp [rspStep, ResponseBody.poll_trailers, hc]
              rw [hstep]
              have := record_class_taken_potential now s rec (c.eos trls)
              unfold classPotential
              simp only [hc, Option.isSome_some, if_true]
              unfold classPotential at this
              omega
      | error er =>
          have hstep : rspStep (s, rec) (.pollTrailers now (.error er))
              = ResponseBody.measure_err now s rec er := by
            simp [rspStep, ResponseBody.poll_trailers]
          rw [hstep]
          exact measure_err_classPotential now s rec er

theorem rspRun_classPotential (es : List RspEvent) :
    ∀ p : ResponseBody × LockedMetrics,
      classPotential (rspRun p es) ≤ classPotential p := by
  induction es with
  | nil => exact fun p => le_refl _
  | cons e es ih =>
      intro p
      rw [rspRun_cons]
      exact (ih (rspStep p e)).trans (rspStep_classPotential p e)

theorem class_finalize_potential (t : Nat) (q : ResponseBody × LockedMetrics) :
    classPotential (match q.1.classify with
      | some c => ResponseBody.record_class t { q.1 with classify := none } q.2 (c.eos none)
      | none => q) ≤ classPotential q := by
  obtain ⟨s, rec⟩ := q
  cases hc : s.classify with
  | none => simp [hc]
  | some c =>
      simp only [hc]
      have := record_class_taken_potential t s rec (c.eos none)
      unfold classPotential at this ⊢
      simp only [hc, Option.isSome_some, if_true]
      omega

theorem drop_classPotential (t : Nat) (p : ResponseBody × LockedMetrics) :
    classPotential (ResponseBody.drop t p.1 p.2) ≤ classPotential p := by
  obtain ⟨s, rec⟩ := p
  by_cases hf : s.latency_recorded
  · simp only [ResponseBody.drop]
    rw [if_pos hf]
    exact class_finalize_potential t (s, rec)
  · simp only [ResponseBody.drop]
    rw [if_neg hf]
    exact (class_finalize_potential t (ResponseBody.record_latency t s rec)).trans
      (le_of_eq (record_latency_classPotential t s rec))

theorem rspLifetime_classObs_le (es : List RspEvent) (t : Nat)
    (p : ResponseBody × LockedMetrics) :
    (rspLifetime p es t).2.m.classObs ≤ p.2.m.classObs + 1 := by
  have h1 : (rspLifetime p es t).2.m.classObs ≤ classPotential (rspLifetime p es t) := by
    unfold classPotential
    omega
  have h2 : classPotential (rspLifetime p es t) ≤ classPotential (rspRun p es) :=
    drop_classPotential t (rspRun p es)
  have h3 := rspRun_classPotential es p
  have h4 : classPotential p ≤ p.2.m.classObs + 1 := by
    unfold classPotential
    by_cases hc : p.1.classify.isSome <;> simp [hc]
  omega

/-! ### Request-side lemmas -/

theorem incr_total_id_of_poisoned (now : Nat) (rec : LockedMetrics)
    (h : rec.poisoned = true) : incr_total now rec = rec := by
  simp [incr_total, h]

theorem incr_total_value (now : Nat) (rec : LockedMetrics)
    (h1 : rec.poisoned = false) (h2 : rec.m.total.value < u64Max) :
    (incr_total now rec).m.total.value = rec.m.total.value + 1 := by
  simp [incr_total, h1, Counter.incr_value_of_lt _ h2]

theorem reqRun_noHandle (es : List (Nat × InnerPoll (Option Unit))) :
    ∀ rec : LockedMetrics, reqRun (false, rec) es = (false, rec) := by
  induction es with
  | nil => intro rec; rfl
  | cons ev es ih =>
      intro rec
      have hstep : reqStep (false, rec) ev = (false, rec) := by
        obtain ⟨now, r⟩ := ev
        cases r <;> simp [reqStep, RequestBody.poll_data]
      show reqRun (reqStep (false, rec) ev) es = (false, rec)
      rw [hstep]
      exact ih rec

theorem reqRun_first_ready (es : List (Nat × InnerPoll (Option Unit))) :
    ∀ rec : LockedMetrics, rec.poisoned = false → rec.m.total.value < u64Max →
      es.any (fun ev => isReadyPoll ev.2) = true →
      (reqRun (true, rec) es).2.m.total.value = rec.m.total.value + 1 := by
  induction es with
  | nil => intro rec _ _ h; simp at h
  | cons ev es ih =>
      intro rec h1 h2 hany
      obtain ⟨now, r⟩ := ev
      cases r with
      | ready frame =>
          have hstep : reqStep (true, rec) (now, .ready frame)
              = (false, incr_total now rec) := by
            simp [reqStep, RequestBody.poll_data]
          show (reqRun (reqStep (true, rec) (now, .ready frame)) es).2.m.total.value
            = rec.m.total.value + 1
          rw [hstep, reqRun_noHandle]
          exact incr_total_value now rec h1 h2
      | notReady =>
          have hstep : reqStep (true, rec) (now, .notReady) = (true, rec) := rfl
          have hany' : es.any (fun ev => isReadyPoll ev.2) = true := by
            simpa [isReadyPoll] using hany
          show (reqRun (reqStep (true, rec) (now, .notReady)) es).2.m.total.value
            = rec.m.total.value + 1
          rw [hstep]
          exact ih rec h1 h2 hany'
      | error er =>
          have hstep : reqStep (true, rec) (now, .error er) = (true, rec) := rfl
          have hany' : es.any (fun ev => isReadyPoll ev.2) = true := by
            simpa [isReadyPoll] using hany
          show (reqRun (reqStep (true, rec) (now, .error er)) es).2.m.total.value
            = rec.m.total.value + 1
          rw [hstep]
          exact ih rec h1 h2 hany'

/-! ### Pass-through and poisoning lemmas -/

theorem req_poll_data_passthrough (now : Nat) (hm : Bool) (rec : LockedMetrics)
    (r : InnerPoll (Option Unit)) :
    (RequestBody.poll_data now hm rec r).2 = r := by
  cases r with
  | notReady => rfl
  | error e => rfl
  | ready frame => by_cases h : hm <;> simp [RequestBody.poll_data, h]

theorem rsp_poll_data_passthrough (now : Nat) (s : ResponseBody)
    (rec : LockedMetrics) (r : InnerPoll (Option Unit)) :
    (ResponseBody.poll_data now s rec r).2 = r := by
  cases r with
  | notReady => rfl
  | error e => rfl
  | ready frame => by_cases hf : s.latency_recorded <;> simp [ResponseBody.poll_data, hf]

theorem rsp_poll_trailers_passthrough (now : Nat) (s : ResponseBody)
    (rec : LockedMetrics) (rt : InnerPoll (Option Trailers)) :
    (ResponseBody.poll_trailers now s rec rt).2 = rt := by
  cases rt with
  | notReady => rfl
  | error e => rfl
  | ready trls => cases hc : s.classify <;> simp [ResponseBody.poll_trailers, hc]

theorem record_class_snd_of_poisoned (now : Nat) (s : ResponseBody)
    (rec : LockedMetrics) (cls : ClassVal) (h : rec.poisoned = true) :
    (ResponseBody.record_class now s rec cls).2 = rec := by
  by_cases hm : s.hasMetrics <;>
    simp [ResponseBody.record_class, hm,
      measure_class_poisoned now rec cls (some s.status) h]

theorem measure_err_snd_of_poisoned (now : Nat) (s : ResponseBody)
    (rec : LockedMetrics) (e : Err) (h : rec.poisoned = true) :
    (ResponseBody.measure_err now s rec e).2 = rec := by
  cases hc : s.classify with
  | none => rw [measure_err_of_none now s rec e hc]
  | some c =>
      rw [measure_err_of_some now s rec e c hc]
      exact record_class_snd_of_poisoned now _ rec _ h

theorem rsp_poll_data_snd_of_poisoned (now : Nat) (s : ResponseBody)
    (rec : LockedMetrics) (r : InnerPoll (Option Unit)) (h : rec.poisoned = true) :
    (ResponseBody.poll_data now s rec r).1.2 = rec := by
  cases r with
  | notReady => rfl
  | error e => exact measure_err_snd_of_poisoned now s rec e h
  | ready frame =>
      by_cases hf : s.latency_recorded
      · simp [ResponseBody.poll_data, hf]
      · simp [ResponseBody.poll_data, hf, record_latency_id_of_poisoned now s rec h]

theorem rsp_poll_trailers_snd_of_poisoned (now : Nat) (s : ResponseBody)
    (rec : LockedMetrics) (rt : InnerPoll (Option Trailers)) (h : rec.poisoned = true) :
    (ResponseBody.poll_trailers now s rec rt).1.2 = rec := by
  cases rt with
  | notReady => rfl
  | error e => exact measure_err_snd_of_poisoned now s rec e h
  | ready trls =>
      cases hc : s.classify with
      | none => simp [ResponseBody.poll_trailers, hc]
      | some c =>
          simp only [ResponseBody.poll_trailers, hc]
          exact record_class_snd_of_poisoned now _ rec _ h

theorem drop_snd_of_poisoned (t : Nat) (s : ResponseBody) (rec : LockedMetrics)
    (h : rec.poisoned = true) :
    (ResponseBody.drop t s rec).2 = rec := by
  by_cases hf : s.latency_recorded
  · simp only [ResponseBody.drop]
    rw [if_pos hf]
    cases hc : s.classify with
    | none => rfl
    | some c =>
        simp only [hc]
        exact record_class_snd_of_poisoned t _ rec _ h
  · simp only [ResponseBody.drop]
    rw [if_neg hf, record_latency_id_of_poisoned t s rec h]
    cases hc : s.classify with
    | none => simp [hc]
    | some c =>
        simp only [hc]
        exact record_class_snd_of_poisoned t _ rec _ h

theorem fut_poll_error_failed (now : Nat) (fs : ResponseFuture)
    (rec : LockedMetrics) (e : Err) :
    (ResponseFuture.poll now fs rec (.error e)).1 = .failed e := by
  by_cases hm : fs.hasMetrics
  · cases hc : fs.classify <;> simp [ResponseFuture.poll, hm, hc]
  · simp [ResponseFuture.poll, hm]

theorem fut_poll_error_snd_of_poisoned (now : Nat) (fs : ResponseFuture)
    (rec : LockedMetrics) (e : Err) (h : rec.poisoned = true) :
    (ResponseFuture.poll now fs rec (.error e)).2 = rec := by
  by_cases hm : fs.hasMetrics
  · cases hc : fs.classify with
    | some c =>
        simp [ResponseFuture.poll, hm, hc,
          measure_class_poisoned now rec (c.error e) none h]
    | none => simp [ResponseFuture.poll, hm, hc]
  · simp [ResponseFuture.poll, hm]

theorem req_poll_data_snd_of_poisoned (now : Nat) (hm : Bool)
    (rec : LockedMetrics) (r : InnerPoll (Option Unit)) (h : rec.poisoned = true) :
    (RequestBody.poll_data now hm rec r).1.2 = rec := by
  cases r with
  | notReady => rfl
  | error e => rfl
  | ready frame =>
      by_cases hb : hm <;>
        simp [RequestBody.poll_data, hb, incr_total_id_of_poisoned now rec h]

theorem service_call_snd_of_poisoned (now : Nat) (hm isEos : Bool)
    (rec : LockedMetrics) (cr : ClassifyResponse) (h : rec.poisoned = true) :
    (Service.call now hm rec isEos cr).2 = rec := by
  cases isEos <;> cases hm <;>
    simp [Service.call, incr_total_id_of_poisoned now rec h]

theorem nodup_keys_append (l : List (Target × Nat)) (k : Target) (v : Nat)
    (hn : (l.map Prod.fst).Nodup) (h : lookupA l k = none) :
    ((l ++ [(k, v)]).map Prod.fst).Nodup := by
  rw [List.map_append]
  rw [List.nodup_append]
  refine ⟨hn, List.nodup_singleton k, ?_⟩
  intro a ha hb
  simp only [List.map_cons, List.map_nil, List.mem_singleton] at hb
  subst hb
  exact (lookupA_eq_none_iff l a).1 h ha

/-! ### Claim theorems -/

/-- Claim C1: for every request stream that reaches a stage with a resolved
metrics handle and a healthy lock and that completes after the first body
frame or after an empty-body dispatch, the target's `Metrics.total` counter
is incremented exactly once: at `Service::call` entry when the incoming
body reports end-of-stream, or on the first completed poll of the wrapped
`RequestBody`, never on both paths and never on later frames, because the
option-typed handle is taken at most once. -/
theorem requests_total_incremented_exactly_once (now : Nat) (rec : LockedMetrics)
    (isEos : Bool) (cr : ClassifyResponse)
    (events : List (Nat × InnerPoll (Option Unit)))
    (h1 : rec.poisoned = false) (h2 : rec.m.total.value < u64Max)
    (h3 : isEos = true ∨ events.any (fun ev => isReadyPoll ev.2) = true) :
    (reqRun ((Service.call now true rec isEos cr).1.reqBodyHasMetrics,
      (Service.call now true rec isEos cr).2) events).2.m.total.value
      = rec.m.total.value + 1 := by
  cases isEos with
  | true =>
      have hcall1 : (Service.call now true rec true cr).1.reqBodyHasMetrics
          = false := rfl
      have hcall2 : (Service.call now true rec true cr).2 = incr_total now rec := rfl
      rw [hcall1, hcall2, reqRun_noHandle]
      exact incr_total_value now rec h1 h2
  | false =>
      have hcall1 : (Service.call now true rec false cr).1.reqBodyHasMetrics
          = true := rfl
      have hcall2 : (Service.call now true rec false cr).2 = rec := rfl
      rw [hcall1, hcall2]
      cases h3 with
      | inl h => exact absurd h (by simp)
      | inr h => exact reqRun_first_ready events rec h1 h2 h

/-- Witness for C1: a request with a non-empty body whose wrapped body is
polled to end-of-stream once increments `total` from 0 to 1. -/
theorem requests_total_incremented_exactly_once_witness :
    (reqRun ((Service.call 1 true rec0 false cr0).1.reqBodyHasMetrics,
      (Service.call 1 true rec0 false cr0).2)
      [(2, InnerPoll.ready none)]).2.m.total.value
      = rec0.m.total.value + 1 :=
  requests_total_incremented_exactly_once 1 rec0 false cr0
    [(2, InnerPoll.ready none)] rfl (by decide) (Or.inr (by decide))

/-- Claim C2 counterexample: a response head with status 200 is produced,
the body errors on its first data poll and the wrapper is then dropped:
the class is recorded under `Some 200` but no latency sample is ever
recorded, refuting "exactly one latency sample for every request that
produces a response head". -/
theorem response_latency_exactly_once_cex :
    (rspLifetime (rb0, rec0) [RspEvent.pollData 4 (InnerPoll.error 9)]
        6).2.m.latencyCount (some 200) = 0
    ∧ (rspLifetime (rb0, rec0) [RspEvent.pollData 4 (InnerPoll.error 9)]
        6).2.m.classCount (some 200) 1 = 1 :=
  ⟨by decide, by decide⟩

/-- Claim C2 (amended): for every request that produces a response head
with status `s`, at most one latency sample is added under
`by_status[Some(s)]` over the whole wrapper lifetime; it is exactly one
unless a transport error arrives before the first completed data poll, in
which case the error classification consumes the metrics handle and no
latency sample is ever recorded; for every request whose inner call errors
before a response head, no latency sample is recorded but one class is
recorded under `by_status[None]`. -/
theorem response_latency_at_most_once (s : ResponseBody) (rec : LockedMetrics)
    (es : List RspEvent) (t : Nat) (c : ClassifyEos)
    (fs : ResponseFuture) (rec2 : LockedMetrics) (cr : ClassifyResponse)
    (e : Err) (now : Nat)
    (h1 : s.hasMetrics = true) (h2 : s.latency_recorded = false)
    (h3 : s.classify = some c) (h4 : rec.poisoned = false)
    (h5 : trailersBeforeData es = false)
    (h6 : fs.classify = some cr) (h7 : fs.hasMetrics = true)
    (h8 : rec2.poisoned = false)
    (h9 : rec2.m.classCount none (cr.error e) < u64Max) :
    (rspLifetime (s, rec) es t).2.m.latencyCount (some s.status)
      = rec.m.latencyCount (some s.status)
          + (if errBeforeData es then 0 else 1)
    ∧ ResponseFuture.poll now fs rec2 (.error e)
        = (.failed e, measure_class now rec2 (cr.error e) none)
    ∧ (∀ st, (measure_class now rec2 (cr.error e) none).m.latencyCount st
        = rec2.m.latencyCount st)
    ∧ (measure_class now rec2 (cr.error e) none).m.classCount none (cr.error e)
        = rec2.m.classCount none (cr.error e) + 1 := by
  refine ⟨latency_lifetime_count es s rec t c h1 h2 h3 h4 h5, ?_,
    fun st => measure_class_latencyCount now rec2 (cr.error e) none st,
    measure_class_classCount_self now rec2 (cr.error e) none h8 h9⟩
  simp [ResponseFuture.poll, h6, h7]

/-- Witness for C2 (amended): an immediately dropped response body records
exactly one latency sample; a pre-head error records a class under `None`
and no latency. -/
theorem response_latency_at_most_once_witness :
    (rspLifetime (rb0, rec0) [] 5).2.m.latencyCount (some rb0.status)
      = rec0.m.latencyCount (some rb0.status)
          + (if errBeforeData [] then 0 else 1)
    ∧ ResponseFuture.poll 9 fut0 rec0 (.error 7)
        = (.failed 7, measure_class 9 rec0 (cr0.error 7) none)
    ∧ (measure_class 9 rec0 (cr0.error 7) none).m.latencyCount none
        = rec0.m.latencyCount none
    ∧ (measure_class 9 rec0 (cr0.error 7) none).m.classCount none (cr0.error 7)
        = rec0.m.classCount none (cr0.error 7) + 1 := by
  have h := response_latency_at_most_once rb0 rec0 [] 5 c0 fut0 rec0 cr0 7 9
    rfl rfl rfl rfl rfl rfl rfl rfl (by decide)
  exact ⟨h.1, h.2.1, h.2.2.1 none, h.2.2.2⟩

/-- Claim C3 counterexample: trailers complete while latency has not yet
been recorded; `poll_trailers` records the class but records no latency
sample and leaves `latency_recorded` false, refuting "on trailers, record
latency if not yet recorded". -/
theorem trailers_latency_claim_cex :
    rb0.latency_recorded = false
    ∧ (ResponseBody.poll_trailers 7 rb0 rec0 (.ready (some 0))).1.2.m.latencyCount
        (some 200) = 0
    ∧ (ResponseBody.poll_trailers 7 rb0 rec0 (.ready (some 0))).1.1.latency_recorded
        = false
    ∧ (ResponseBody.poll_trailers 7 rb0 rec0 (.ready (some 0))).1.2.m.classCount
        (some 200) 0 = 1 :=
  ⟨rfl, by decide, by decide, by decide⟩

/-- Claim C3 (amended): when the wrapper successfully produces trailers it
consumes the classifier with the trailers and records the resulting class
under `by_status[Some(status)].by_class`; it records no latency sample in
`poll_trailers` — the latency histograms and the `latency_recorded` flag
are unchanged by the trailers path. -/
theorem trailers_records_class_only (now : Nat) (s : ResponseBody)
    (rec : LockedMetrics) (c : ClassifyEos) (trls : Option Trailers)
    (h1 : s.classify = some c) (h2 : s.hasMetrics = true)
    (h3 : rec.poisoned = false)
    (h4 : rec.m.classCount (some s.status) (c.eos trls) < u64Max) :
    (ResponseBody.poll_trailers now s rec (.ready trls)).2 = .ready trls
    ∧ (ResponseBody.poll_trailers now s rec (.ready trls)).1.2.m.classCount
        (some s.status) (c.eos trls)
        = rec.m.classCount (some s.status) (c.eos trls) + 1
    ∧ (∀ st, (ResponseBody.poll_trailers now s rec (.ready trls)).1.2.m.latencyCount st
        = rec.m.latencyCount st)
    ∧ (ResponseBody.poll_trailers now s rec (.ready trls)).1.1.latency_recorded
        = s.latency_recorded
    ∧ (ResponseBody.poll_trailers now s rec (.ready trls)).1.1.classify = none := by
  have hred : (ResponseBody.poll_trailers now s rec (.ready trls)).1
      = ResponseBody.record_class now { s with classify := none } rec (c.eos trls) := by
    simp [ResponseBody.poll_trailers, h1]
  refine ⟨by simp [ResponseBody.poll_trailers, h1], ?_, ?_, ?_, ?_⟩
  · rw [hred, record_class_snd_of now { s with classify := none } rec (c.eos trls) h2]
    exact measure_class_classCount_self now rec (c.eos trls) (some s.status) h3 h4
  · intro st
    rw [hred, record_class_latencyCount]
  · rw [hred, record_class_fst_flag]
  · rw [hred, record_class_fst_classify]

/-- Witness for C3 (amended) at a concrete state and trailer map. -/
theorem trailers_records_class_only_witness :
    (ResponseBody.poll_trailers 7 rb0 rec0 (.ready (some 0))).2 = .ready (some 0)
    ∧ (ResponseBody.poll_trailers 7 rb0 rec0 (.ready (some 0))).1.2.m.classCount
        (some rb0.status) (c0.eos (some 0))
        = rec0.m.classCount (some rb0.status) (c0.eos (some 0)) + 1
    ∧ (ResponseBody.poll_trailers 7 rb0 rec0 (.ready (some 0))).1.2.m.latencyCount
        (some 200) = rec0.m.latencyCount (some 200)
    ∧ (ResponseBody.poll_trailers 7 rb0 rec0 (.ready (some 0))).1.1.latency_recorded
        = rb0.latency_recorded
    ∧ (ResponseBody.poll_trailers 7 rb0 rec0 (.ready (some 0))).1.1.classify = none := by
  have h := trailers_records_class_only 7 rb0 rec0 c0 (some 0) rfl rfl rfl (by decide)
  exact ⟨h.1, h.2.1, h.2.2.1 (some 200), h.2.2.2.1, h.2.2.2.2⟩

/-- Claim C4: every request records at most one class observation in the
registry, whichever terminal event occurs (trailers, a body-stream error,
drop without trailers, or a pre-head inner error), because the classifier
is option-typed and consumed by `take` on the first terminal event. -/
theorem class_observation_at_most_once (p : ResponseBody × LockedMetrics)
    (es : List RspEvent) (t now : Nat) (fs : ResponseFuture)
    (rec : LockedMetrics) (e : Err) :
    (rspLifetime p es t).2.m.classObs ≤ p.2.m.classObs + 1
    ∧ (ResponseFuture.poll now fs rec (.error e)).2.m.classObs
        ≤ rec.m.classObs + 1 := by
  refine ⟨rspLifetime_classObs_le es t p, ?_⟩
  by_cases hm : fs.hasMetrics
  · cases hc : fs.classify with
    | some c =>
        simp only [ResponseFuture.poll, hm, hc, if_true]
        exact measure_class_classObs_le now rec (c.error e) none
    | none => simp [ResponseFuture.poll, hm, hc]
  · simp [ResponseFuture.poll, hm]

/-- Claim C5: if the inner response future resolves to an error before a
response head, the future consumes the classifier through its error
branch, records exactly one class under `by_status[None]`, records no
latency sample, and propagates the error to the caller. -/
theorem prehead_error_records_class_under_none (now : Nat) (fs : ResponseFuture)
    (rec : LockedMetrics) (cr : ClassifyResponse) (e : Err)
    (h1 : fs.classify = some cr) (h2 : fs.hasMetrics = true)
    (h3 : rec.poisoned = false)
    (h4 : rec.m.classCount none (cr.error e) < u64Max) :
    ResponseFuture.poll now fs rec (.error e)
      = (.failed e, measure_class now rec (cr.error e) none)
    ∧ (measure_class now rec (cr.error e) none).m.classCount none (cr.error e)
        = rec.m.classCount none (cr.error e) + 1
    ∧ (∀ st, (measure_class now rec (cr.error e) none).m.latencyCount st
        = rec.m.latencyCount st) := by
  refine ⟨?_, measure_class_classCount_self now rec (cr.error e) none h3 h4,
    fun st => measure_class_latencyCount now rec (cr.error e) none st⟩
  simp [ResponseFuture.poll, h1, h2]

/-- Witness for C5 at a concrete future, record and error. -/
theorem prehead_error_records_class_under_none_witness :
    ResponseFuture.poll 3 fut0 rec0 (.error 4)
      = (.failed 4, measure_class 3 rec0 (cr0.error 4) none)
    ∧ (measure_class 3 rec0 (cr0.error 4) none).m.classCount none (cr0.error 4)
        = rec0.m.classCount none (cr0.error 4) + 1
    ∧ (measure_class 3 rec0 (cr0.error 4) none).m.latencyCount none
        = rec0.m.latencyCount none := by
  have h := prehead_error_records_class_under_none 3 fut0 rec0 cr0 4
    rfl rfl rfl (by decide)
  exact ⟨h.1, h.2.1, h.2.2 none⟩

/-- Claim C6: a transport error during body streaming (`poll_data` or
`poll_trailers`) consumes the classifier with that error, records the
resulting class under `by_status[Some(current status)]`, and returns the
very same error to the caller. -/
theorem body_error_classified_and_propagated (now : Nat) (s : ResponseBody)
    (rec : LockedMetrics) (c : ClassifyEos) (e : Err)
    (h1 : s.classify = some c) (h2 : s.hasMetrics = true)
    (h3 : rec.poisoned = false)
    (h4 : rec.m.classCount (some s.status) (c.err e) < u64Max) :
    (ResponseBody.poll_data now s rec (.error e)).2 = .error e
    ∧ (ResponseBody.poll_data now s rec (.error e)).1.2.m.classCount
        (some s.status) (c.err e)
        = rec.m.classCount (some s.status) (c.err e) + 1
    ∧ (ResponseBody.poll_data now s rec (.error e)).1.1.classify = none
    ∧ (ResponseBody.poll_trailers now s rec (.error e)).2 = .error e
    ∧ (ResponseBody.poll_trailers now s rec (.error e)).1.2.m.classCount
        (some s.status) (c.err e)
        = rec.m.classCount (some s.status) (c.err e) + 1
    ∧ (ResponseBody.poll_trailers now s rec (.error e)).1.1.classify = none := by
  have hsnd : (ResponseBody.measure_err now s rec e).2
      = measure_class now rec (c.err e) (some s.status) := by
    rw [measure_err_of_some now s rec e c h1]
    exact record_class_snd_of now { s with classify := none } rec (c.err e) h2
  refine ⟨rfl, ?_, measure_err_fst_classify now s rec e, rfl, ?_,
    measure_err_fst_classify now s rec e⟩
  · show (ResponseBody.measure_err now s rec e).2.m.classCount
        (some s.status) (c.err e) = _
    rw [hsnd]
    exact measure_class_classCount_self now rec (c.err e) (some s.status) h3 h4
  · show (ResponseBody.measure_err now s rec e).2.m.classCount
        (some s.status) (c.err e) = _
    rw [hsnd]
    exact measure_class_classCount_self now rec (c.err e) (some s.status) h3 h4

/-- Witness for C6 at a concrete state and error. -/
theorem body_error_classified_and_propagated_witness :
    (ResponseBody.poll_data 2 rb0 rec0 (.error 8)).2 = .error 8
    ∧ (ResponseBody.poll_data 2 rb0 rec0 (.error 8)).1.2.m.classCount
        (some rb0.status) (c0.err 8)
        = rec0.m.classCount (some rb0.status) (c0.err 8) + 1
    ∧ (ResponseBody.poll_data 2 rb0 rec0 (.error 8)).1.1.classify = none
    ∧ (ResponseBody.poll_trailers 2 rb0 rec0 (.error 8)).2 = .error 8
    ∧ (ResponseBody.poll_trailers 2 rb0 rec0 (.error 8)).1.2.m.classCount
        (some rb0.status) (c0.err 8)
        = rec0.m.classCount (some rb0.status) (c0.err 8) + 1
    ∧ (ResponseBody.poll_trailers 2 rb0 rec0 (.error 8)).1.1.classify = none :=
  body_error_classified_and_propagated 2 rb0 rec0 c0 8 rfl rfl rfl (by decide)

/-- Claim C7: dropping the wrapper after trailers have completed is a
no-op on the metrics record: the destructor is the identity on both the
wrapper state and the record, so no latency sample and no class
observation is added. -/
theorem drop_after_trailers_is_noop (t t2 : Nat) (s : ResponseBody)
    (rec : LockedMetrics) (c : ClassifyEos) (trls : Option Trailers)
    (h1 : s.classify = some c) :
    ResponseBody.drop t2 (ResponseBody.poll_trailers t s rec (.ready trls)).1.1
        (ResponseBody.poll_trailers t s rec (.ready trls)).1.2
      = (ResponseBody.poll_trailers t s rec (.ready trls)).1 := by
  have h2 : (ResponseBody.poll_trailers t s rec (.ready trls)).1.1.hasMetrics
      = false := by
    simp only [ResponseBody.poll_trailers, h1]
    exact record_class_fst_hasMetrics t { s with classify := none } rec (c.eos trls)
  have h3 : (ResponseBody.poll_trailers t s rec (.ready trls)).1.1.classify
      = none := by
    simp only [ResponseBody.poll_trailers, h1]
    rw [record_class_fst_classify]
  exact drop_dead t2 _ h2 h3

/-- Witness for C7 at a concrete post-trailers state. -/
theorem drop_after_trailers_is_noop_witness :
    ResponseBody.drop 9 (ResponseBody.poll_trailers 1 rb0 rec0 (.ready none)).1.1
        (ResponseBody.poll_trailers 1 rb0 rec0 (.ready none)).1.2
      = (ResponseBody.poll_trailers 1 rb0 rec0 (.ready none)).1 :=
  drop_after_trailers_is_noop 1 9 rb0 rec0 c0 none rfl

/-- Claim C8: a poisoned registry or per-record lock never surfaces as a
request error: a poisoned registry makes `new_service` return a stage with
no handle and untouched registry state; every recording site under a
poisoned per-record lock leaves the record untouched; and on every path
the poll outcome handed to the caller (frame, trailers, error, response)
is exactly the inner one, independent of the metrics state. -/
theorem lock_poisoning_is_harmless (reg : Registry) (store : Store) (k : Target)
    (now : Nat) (rec : LockedMetrics) (isEos hm : Bool) (cr : ClassifyResponse)
    (s : ResponseBody) (fs : ResponseFuture) (e : Err)
    (r : InnerPoll (Option Unit)) (rt : InnerPoll (Option Trailers))
    (hreg : reg.poisoned = true) (hrec : rec.poisoned = true) :
    MakeSvc.new_service reg store k = (none, reg, store)
    ∧ (Service.call now hm rec isEos cr).2 = rec
    ∧ (RequestBody.poll_data now hm rec r).2 = r
    ∧ (RequestBody.poll_data now hm rec r).1.2 = rec
    ∧ (ResponseBody.poll_data now s rec r).2 = r
    ∧ (ResponseBody.poll_data now s rec r).1.2 = rec
    ∧ (ResponseBody.poll_trailers now s rec rt).2 = rt
    ∧ (ResponseBody.poll_trailers now s rec rt).1.2 = rec
    ∧ (ResponseBody.drop now s rec).2 = rec
    ∧ (ResponseFuture.poll now fs rec (.error e)).1 = .failed e
    ∧ (ResponseFuture.poll now fs rec (.error e)).2 = rec := by
  refine ⟨by simp [MakeSvc.new_service, hreg],
    service_call_snd_of_poisoned now hm isEos rec cr hrec,
    req_poll_data_passthrough now hm rec r,
    req_poll_data_snd_of_poisoned now hm rec r hrec,
    rsp_poll_data_passthrough now s rec r,
    rsp_poll_data_snd_of_poisoned now s rec r hrec,
    rsp_poll_trailers_passthrough now s rec rt,
    rsp_poll_trailers_snd_of_poisoned now s rec rt hrec,
    drop_snd_of_poisoned now s rec hrec,
    fut_poll_error_failed now fs rec e,
    fut_poll_error_snd_of_poisoned now fs rec e hrec⟩

/-- Witness for C8 at concrete poisoned registry and record. -/
theorem lock_poisoning_is_harmless_witness :
    MakeSvc.new_service regP store0 0 = (none, regP, store0)
    ∧ (Service.call 1 true recP true cr0).2 = recP
    ∧ (RequestBody.poll_data 1 true recP (.ready none)).2 = .ready none
    ∧ (RequestBody.poll_data 1 true recP (.ready none)).1.2 = recP
    ∧ (ResponseBody.poll_data 1 rb0 recP (.ready none)).2 = .ready none
    ∧ (ResponseBody.poll_data 1 rb0 recP (.ready none)).1.2 = recP
    ∧ (ResponseBody.poll_trailers 1 rb0 recP (.ready (some 2))).2 = .ready (some 2)
    ∧ (ResponseBody.poll_trailers 1 rb0 recP (.ready (some 2))).1.2 = recP
    ∧ (ResponseBody.drop 1 rb0 recP).2 = recP
    ∧ (ResponseFuture.poll 1 fut0 recP (.error 5)).1 = .failed 5
    ∧ (ResponseFuture.poll 1 fut0 recP (.error 5)).2 = recP :=
  lock_poisoning_is_harmless regP store0 0 1 recP true true cr0 rb0 fut0 5
    (.ready none) (.ready (some 2)) rfl rfl

/-- Claim C9: the registry holds at most one record per target key and
resolution is insert-or-get: a present key returns its existing handle
unchanged, an absent key allocates one fresh default record, resolving the
same key again returns the very same handle without further change, and
key uniqueness is preserved. -/
theorem registry_insert_or_get_unique (reg : Registry) (store : Store) (k : Target)
    (hn : (reg.by_target.map Prod.fst).Nodup) (hp : reg.poisoned = false) :
    (∀ id, lookupA reg.by_target k = some id →
        MakeSvc.new_service reg store k = (some id, reg, store))
    ∧ (lookupA reg.by_target k = none →
        MakeSvc.new_service reg store k
          = (some store.recs.length,
             { reg with by_target := reg.by_target ++ [(k, store.recs.length)] },
             { recs := store.recs ++ [{ poisoned := false, m := Metrics.default }] }))
    ∧ MakeSvc.new_service (MakeSvc.new_service reg store k).2.1
        (MakeSvc.new_service reg store k).2.2 k
        = MakeSvc.new_service reg store k
    ∧ ((MakeSvc.new_service reg store k).2.1.by_target.map Prod.fst).Nodup := by
  refine ⟨?_, ?_, ?_, ?_⟩
  · intro id hid
    simp [MakeSvc.new_service, hp, hid]
  · intro hid
    simp [MakeSvc.new_service, hp, hid]
  · cases hid : lookupA reg.by_target k with
    | some id =>
        have h1 : MakeSvc.new_service reg store k = (some id, reg, store) := by
          simp [MakeSvc.new_service, hp, hid]
        rw [h1]
        exact h1
    | none =>
        have h1 : MakeSvc.new_service reg store k
            = (some store.recs.length,
               { reg with by_target := reg.by_target ++ [(k, store.recs.length)] },
               { recs := store.recs
                   ++ [{ poisoned := false, m := Metrics.default }] }) := by
          simp [MakeSvc.new_service, hp, hid]
        rw [h1]
        have h2 : lookupA (reg.by_target ++ [(k, store.recs.length)]) k
            = some store.recs.length :=
          lookupA_append_single_self reg.by_target k store.recs.length hid
        simp [MakeSvc.new_service, hp, h2]
  · cases hid : lookupA reg.by_target k with
    | some id =>
        have h1 : MakeSvc.new_service reg store k = (some id, reg, store) := by
          simp [MakeSvc.new_service, hp, hid]
        rw [h1]
        exact hn
    | none =>
        have h1 : MakeSvc.new_service reg store k
            = (some store.recs.length,
               { reg with by_target := reg.by_target ++ [(k, store.recs.length)] },
               { recs := store.recs
                   ++ [{ poisoned := false, m := Metrics.default }] }) := by
          simp [MakeSvc.new_service, hp, hid]
        rw [h1]
        exact nodup_keys_append reg.by_target k store.recs.length hn hid

/-- Witness for C9: resolving key 0 twice on an empty registry allocates
once and then returns the same handle; key uniqueness holds afterwards. -/
theorem registry_insert_or_get_unique_witness :
    MakeSvc.new_service (MakeSvc.new_service regEmpty store0 0).2.1
        (MakeSvc.new_service regEmpty store0 0).2.2 0
      = MakeSvc.new_service regEmpty store0 0
    ∧ ((MakeSvc.new_service regEmpty store0 0).2.1.by_target.map Prod.fst).Nodup
    ∧ MakeSvc.new_service regEmpty store0 0
        = (some store0.recs.length,
           { regEmpty with by_target := regEmpty.by_target ++ [(0, store0.recs.length)] },
           { recs := store0.recs ++ [{ poisoned := false, m := Metrics.default }] }) := by
  have h := registry_insert_or_get_unique regEmpty store0 0 (by simp [regEmpty]) rfl
  exact ⟨h.2.2.1, h.2.2.2, h.2.1 rfl⟩

/-- Claim C10: when the incoming body is not end-of-stream at call entry,
the handle is passed on untouched to the `RequestBody` wrapper, and the
wrapper's first completed `poll_data` increments `total` and takes the
handle even when that poll yields end-of-stream rather than a data frame
— a zero-frame body is counted once its body is polled to completion. -/
theorem empty_body_counted_on_first_poll (now1 now2 : Nat) (rec : LockedMetrics)
    (cr : ClassifyResponse) (h1 : rec.poisoned = false)
    (h2 : rec.m.total.value < u64Max) :
    (Service.call now1 true rec false cr).1.reqBodyHasMetrics = true
    ∧ (Service.call now1 true rec false cr).2 = rec
    ∧ (RequestBody.poll_data now2 true rec (.ready none)).1.2.m.total.value
        = rec.m.total.value + 1
    ∧ (RequestBody.poll_data now2 true rec (.ready none)).1.1 = false
    ∧ (RequestBody.poll_data now2 true rec (.ready none)).2 = .ready none := by
  refine ⟨rfl, rfl, ?_, rfl, rfl⟩
  have hred : (RequestBody.poll_data now2 true rec (.ready none)).1.2
      = incr_total now2 rec := rfl
  rw [hred]
  exact incr_total_value now2 rec h1 h2

/-- Witness for C10 at a concrete fresh record. -/
theorem empty_body_counted_on_first_poll_witness :
    (Service.call 1 true rec0 false cr0).1.reqBodyHasMetrics = true
    ∧ (Service.call 1 true rec0 false cr0).2 = rec0
    ∧ (RequestBody.poll_data 2 true rec0 (.ready none)).1.2.m.total.value
        = rec0.m.total.value + 1
    ∧ (RequestBody.poll_data 2 true rec0 (.ready none)).1.1 = false
    ∧ (RequestBody.poll_data 2 true rec0 (.ready none)).2 = .ready none :=
  empty_body_counted_on_first_poll 1 2 rec0 cr0 rfl (by decide)
